import Mathlib

/-!
Shallow embedding of the navigation and input-routing core of
src/streamdeck.mjs (StreamDeckController).

Conventions of the embedding:
* The connected device handle is assumed present (post-initialize), so the
  early returns (if this device is null, return) never fire; device writes are
  recorded as explicit Effect values instead.
* JS Map objects are modelled as association lists with Map.set semantics
  (replace in place when the key exists, append otherwise).
* Callbacks are modelled as first-order Action descriptors; invoking a
  callback is recorded as an Effect.
* A thrown-and-not-locally-caught JS exception is modelled as the third
  component (Option String) of a handler result; state mutations that
  happened before the throw persist, as in the source.
* JS number payloads are Nat; Number(object) is NaN, modelled as none.
-/

namespace SDeck

/-- JS `a || b` on an optional string: undefined and the empty string are
falsy, so both fall back to the default. -/
def jsOr : Option String → String → String
  | some s, d => if s = "" then d else s
  | none, d => d

/-- One normalized module, as built by loadChainLayout from one channel side
of one item. Optional-chained fields that can be undefined stay Option. -/
structure Module where
  name : Option String
  deviceName : Option String
  role : Option String
  midiNote : Option Int
  channel : String
  phonia : Option String
  tags : Option (List String)
  ab : Option String
deriving DecidableEq, Repr

/-- One normalized chain, as built by loadChainLayout. -/
structure Chain where
  name : String
  id : Option String
  midiChannel : Option Int
  active : Bool
  modules : List Module
deriving DecidableEq, Repr

/-- Raw decoded tree: item[ch].device sub-record. -/
structure RawDevice where
  name : Option String
deriving DecidableEq, Repr

/-- Raw decoded tree: item[ch].midi sub-record. -/
structure RawMidi where
  note : Option Int
deriving DecidableEq, Repr

/-- Raw decoded tree: one channel side of an item. The role sub-record is an
object; only its key list (in insertion order) matters to the source, which
takes Object.keys(role or empty)[0]. -/
structure RawSide where
  name : Option String
  device : Option RawDevice
  roleKeys : Option (List String)
  midi : Option RawMidi
  phonia : Option String
  tags : Option (List String)
deriving DecidableEq, Repr

/-- Raw decoded tree: one item with optional L and R sides. -/
structure RawItem where
  L : Option RawSide
  R : Option RawSide
deriving DecidableEq, Repr

/-- Raw decoded tree: one cell. -/
structure RawCell where
  items : Option (List RawItem)
  ab : Option String
deriving DecidableEq, Repr

/-- Raw decoded tree: one lane. -/
structure RawLane where
  cells : Option (List RawCell)
deriving DecidableEq, Repr

/-- Raw decoded tree: chain.state sub-record. -/
structure RawChainMeta where
  name : Option String
  midiChannel : Option Int
deriving DecidableEq, Repr

/-- Raw decoded tree: chain.cond sub-record. -/
structure RawCond where
  active : Option Bool
deriving DecidableEq, Repr

/-- Raw decoded tree: one value of the top-level chains mapping. -/
structure RawChain where
  state : Option RawChainMeta
  id : Option String
  cond : Option RawCond
  lanes : Option (List RawLane)
deriving DecidableEq, Repr

/-- Raw decoded tree: the whole document; Object.values(data.chains) gives
the chain records in order, key names ignored. -/
structure RawData where
  chains : List RawChain
deriving DecidableEq, Repr

/-- Modules contributed by one channel side of one item: the source filters
the channel list by truthiness of item[ch] and maps each present side to a
module record. An absent side contributes nothing. -/
def sideModules (ch : String) (side : Option RawSide) (cellAb : Option String) : List Module :=
  match side with
  | none => []
  | some s =>
      [{ name := s.name
         deviceName := s.device.bind RawDevice.name
         role := (s.roleKeys.getD []).head?
         midiNote := s.midi.bind RawMidi.note
         channel := ch
         phonia := s.phonia
         tags := s.tags
         ab := cellAb }]

/-- Modules of one item, L side before R side, as in the filtered channel
list of the source. -/
def itemModules (cellAb : Option String) (item : RawItem) : List Module :=
  sideModules "L" item.L cellAb ++ sideModules "R" item.R cellAb

/-- Modules of one cell: cell.items with undefined falling back to the empty
list, flat-mapped over items. -/
def cellModules (cell : RawCell) : List Module :=
  ((cell.items.getD []).map (itemModules cell.ab)).flatten

/-- Normalization of one raw chain record, following the field-by-field
extraction in loadChainLayout. Result none models the TypeError thrown when
lanes is a present but empty array: lanes[0] is then undefined and the plain
member access of cells on it throws (the optional chain only guards lanes
itself). An absent lanes field short-circuits the whole optional chain and
falls back to the empty module list. -/
def normalizeChain (c : RawChain) : Option Chain :=
  match c.lanes with
  | some [] => none
  | some (lane :: _) =>
      some { name := jsOr (c.state.bind RawChainMeta.name) "Unnamed Chain"
             id := c.id
             midiChannel := c.state.bind RawChainMeta.midiChannel
             active := (c.cond.bind RawCond.active).getD false
             modules := ((lane.cells.getD []).map cellModules).flatten }
  | none =>
      some { name := jsOr (c.state.bind RawChainMeta.name) "Unnamed Chain"
             id := c.id
             midiChannel := c.state.bind RawChainMeta.midiChannel
             active := (c.cond.bind RawCond.active).getD false
             modules := [] }

/-- Callback descriptors for the closures the source registers or that a
caller of the public registerButtonAction passes in. -/
inductive Action where
  | currentChainInfo (chainName : String)
  | moduleInfo (m : Module) (label : String)
  | hostCallback (tag : String)
deriving DecidableEq, Repr

/-- The record stored in the buttonStates map by registerButtonAction:
press callback, optional release callback (buttonInfo is logging-only). -/
structure ButtonState where
  press : Action
  release : Option Action
deriving DecidableEq, Repr

/-- Observable side effects of the handlers: device writes and callback
invocations. -/
inductive Effect where
  | clearPanel
  | setBrightness (percent : Nat)
  | drawText (index : Nat) (text : String) (backgroundColor : String) (fontSize : Nat) (midiChannel : Option Int)
  | invoked (a : Action)
  | encoderCall (cb : Nat) (rotation : Int)
deriving DecidableEq, Repr

/-- The mutable fields of StreamDeckController that the navigation core
reads and writes. -/
structure ControllerState where
  chains : List Chain
  currentChain : Option Chain
  buttonTexts : List (Nat × String)
  buttonStates : List (Nat × ButtonState)
deriving DecidableEq, Repr

/-- JS Map.set: replace the value in place when the key is present, append
otherwise. -/
def mapSet {α : Type} (m : List (Nat × α)) (k : Nat) (v : α) : List (Nat × α) :=
  if m.any (fun p => p.1 == k) then
    m.map (fun p => if p.1 == k then (k, v) else p)
  else
    m ++ [(k, v)]

/-- JS Map.get: first binding of the key, none when absent. -/
def mapGet {α : Type} (m : List (Nat × α)) (k : Nat) : Option α :=
  (m.find? (fun p => p.1 == k)).map Prod.snd

/-- A raw key event payload: a bare number or a structured object carrying
an index field. -/
inductive KeyEvent where
  | bare (n : Nat)
  | structured (index : Nat)
deriving DecidableEq, Repr

/-- The private getKeyIndex: objects yield their index field, other payloads
go through Number. -/
def getKeyIndex : KeyEvent → Nat
  | KeyEvent.bare n => n
  | KeyEvent.structured i => i

/-- JS Number applied to a raw key event: a bare number is itself, an object
coerces to NaN (modelled as none, which matches no map key). -/
def jsNumber : KeyEvent → Option Nat
  | KeyEvent.bare n => some n
  | KeyEvent.structured _ => none

/-- resetDeck: clear the panel, set brightness 100, clear both maps. -/
def resetDeck (st : ControllerState) : ControllerState × List Effect :=
  ({ st with buttonTexts := [], buttonStates := [] },
   [Effect.clearPanel, Effect.setBrightness 100])

/-- setButtonText: draw the label and remember the text for the index. -/
def setButtonText (st : ControllerState) (index : Nat) (text : String)
    (fontSize : Nat) (backgroundColor : String) (midiChannel : Option Int) :
    ControllerState × List Effect :=
  ({ st with buttonTexts := mapSet st.buttonTexts index text },
   [Effect.drawText index text backgroundColor fontSize midiChannel])

/-- registerButtonAction: store press and release callbacks under the
numeric key. -/
def registerButtonAction (st : ControllerState) (keyIndex : Nat)
    (press : Action) (release : Option Action) : ControllerState :=
  { st with buttonStates := mapSet st.buttonStates keyIndex ⟨press, release⟩ }

/-- getButtonText: stored text with the JS falsy fallback label. -/
def getButtonText (st : ControllerState) (index : Nat) : String :=
  jsOr (mapGet st.buttonTexts index) s!"Unknown Button {index}"

/-- createShowChainsButton: fixed red system button at index 0. -/
def createShowChainsButton (st : ControllerState) : ControllerState × List Effect :=
  setButtonText st 0 "Show Chains" 16 "#FF0000" none

/-- The chain-button loop of showChains, drawing successive chains at
successive indices. -/
def chainButtons (st : ControllerState) : List Chain → Nat → ControllerState × List Effect
  | [], _ => (st, [])
  | c :: rest, idx =>
      let r1 := setButtonText st idx c.name 16 "#8B4513" c.midiChannel
      let r2 := chainButtons r1.1 rest (idx + 1)
      (r2.1, r1.2 ++ r2.2)

/-- showChains: reset the deck, draw the system button at 0, then draw at
most 31 chains at button indices i + 1 for i = 0.. (the loop runs while
i is below both the chain count and 31). -/
def showChains (st : ControllerState) : ControllerState × List Effect :=
  let r0 := resetDeck st
  let r1 := createShowChainsButton r0.1
  let r2 := chainButtons r1.1 (r1.1.chains.take 31) 1
  (r2.1, r0.2 ++ r1.2 ++ r2.2)

/-- createChainNameButton: chain name at index 1 with the MIDI overlay of
the current chain, plus an informational press callback. Reached only after
loadChain has set currentChain. -/
def createChainNameButton (st : ControllerState) (chainName : String) :
    ControllerState × List Effect :=
  let midi := match st.currentChain with
    | some c => c.midiChannel
    | none => none
  let r := setButtonText st 1 chainName 16 "#8B4513" midi
  (registerButtonAction r.1 1 (Action.currentChainInfo chainName) none, r.2)

/-- ASCII toLowerCase, character by character. -/
def jsToLower (s : String) : String :=
  ⟨s.data.map Char.toLower⟩

/-- The fixed role to color table. The source calls toLowerCase on the role
before the switch, so an undefined role throws a TypeError, modelled as
none. -/
def getColorForRole : Option String → Option String
  | none => none
  | some role =>
      some (if jsToLower role = "source" then "#00008B"
            else if jsToLower role = "proc" then "#FF8C00"
            else if jsToLower role = "dest" then "#006400"
            else "#333333")

/-- One entry of the layout array built by showModules. -/
structure LayoutEntry where
  label : String
  backgroundColor : String
  textColor : String
  fontSize : Nat
  mod : Module
deriving DecidableEq, Repr

/-- The loop body of createCustomLayout over the (at most 30) entries,
drawing at index + 2 and registering the module press callback. -/
def customLoop (st : ControllerState) : List LayoutEntry → Nat → ControllerState × List Effect
  | [], _ => (st, [])
  | b :: rest, idx =>
      let r1 := setButtonText st idx b.label b.fontSize b.backgroundColor none
      let st1 := registerButtonAction r1.1 idx (Action.moduleInfo b.mod b.label) none
      let r2 := customLoop st1 rest (idx + 1)
      (r2.1, r1.2 ++ r2.2)

/-- createCustomLayout: entries beyond index 29 are skipped; button index is
the entry index offset by 2. -/
def createCustomLayout (st : ControllerState) (layout : List LayoutEntry) :
    ControllerState × List Effect :=
  customLoop st (layout.take 30) 2

/-- The layout array built by showModules: one entry per module, with the
role color; an undefined role makes the color lookup throw while the array
is being built, modelled as none. -/
def moduleLayout (chain : Chain) : Option (List LayoutEntry) :=
  chain.modules.mapM (fun m =>
    (getColorForRole m.role).map (fun col =>
      ({ label := jsOr m.deviceName "Unknown Device"
         backgroundColor := col
         textColor := "#ffffff"
         fontSize := 12
         mod := m } : LayoutEntry)))

/-- showModules: build the layout array (the color lookup throws on an
undefined role, aborting before any drawing), then run createCustomLayout. -/
def showModules (st : ControllerState) (chain : Chain) :
    ControllerState × List Effect × Option String :=
  match moduleLayout chain with
  | none => (st, [], some "TypeError: cannot read toLowerCase of undefined")
  | some layout =>
      let r := createCustomLayout st layout
      (r.1, r.2, none)

/-- loadChain: remember the chain, reset, draw the system button, the chain
header button, then the module layout. -/
def loadChain (st : ControllerState) (chain : Chain) :
    ControllerState × List Effect × Option String :=
  let st0 := { st with currentChain := some chain }
  let r1 := resetDeck st0
  let r2 := createShowChainsButton r1.1
  let r3 := createChainNameButton r2.1 chain.name
  let r4 := showModules r3.1 chain
  (r4.1, r1.2 ++ r2.2 ++ r3.2 ++ r4.2.1, r4.2.2)

/-- handleKeyPress: index 0 redraws the catalog view; any other index is
resolved through the displayed text and matched against chain names, the
first match being loaded; no match is a silent no-op. The press callbacks
stored in buttonStates are never consulted here. -/
def handleKeyPress (st : ControllerState) (e : KeyEvent) :
    ControllerState × List Effect × Option String :=
  let index := getKeyIndex e
  if index = 0 then
    let r := showChains st
    (r.1, r.2, none)
  else
    let buttonText := getButtonText st index
    match st.chains.find? (fun c => c.name == buttonText) with
    | some chain => loadChain st chain
    | none => (st, [], none)

/-- handleKeyRelease: looks the raw payload up under Number(payload), which
is NaN for a structured event, and fires the release callback when the
stored record has one. -/
def handleKeyRelease (st : ControllerState) (e : KeyEvent) : List Effect :=
  match jsNumber e with
  | none => []
  | some n =>
      match mapGet st.buttonStates n with
      | some bs =>
          match bs.release with
          | some a => [Effect.invoked a]
          | none => []
      | none => []

/-- loadChainLayout on an already decoded document: normalize all chain
records (a TypeError during the mapping is caught with the state untouched),
assign the result to the chains field, then throw when it is empty (caught
after the assignment) or redraw the catalog view. -/
def loadChainLayout (st : ControllerState) (data : RawData) :
    ControllerState × List Effect × Option String :=
  match data.chains.mapM normalizeChain with
  | none => (st, [], some "TypeError: cannot read cells of undefined")
  | some cs =>
      if cs.length = 0 then
        ({ st with chains := cs }, [], some "No chains found in the JSON file.")
      else
        let r := showChains { st with chains := cs }
        (r.1, r.2, none)

/-- Rotate callbacks for one encoder; callbacks are opaque numeric ids. -/
structure EncoderCallbacks where
  rotate : Option Nat
  press : Option Nat
  release : Option Nat
deriving DecidableEq, Repr

/-- Both encoder callback records. -/
structure EncoderBindings where
  left : EncoderCallbacks
  right : EncoderCallbacks
deriving DecidableEq, Repr

/-- registerEncoderActions: encoder 0 is the left record, anything else the
right one. -/
def registerEncoderActions (b : EncoderBindings) (encoder : Nat)
    (cbs : EncoderCallbacks) : EncoderBindings :=
  if encoder = 0 then { b with left := cbs } else { b with right := cbs }

/-- handleEncoderRotate: pick left for id 0 and right otherwise, call the
rotate callback when present. -/
def handleEncoderRotate (b : EncoderBindings) (encoder : Nat) (rotation : Int) :
    List Effect :=
  let k := if encoder = 0 then b.left else b.right
  match k.rotate with
  | some cb => [Effect.encoderCall cb rotation]
  | none => []

/-- The callback-invocation effects among a list of effects. -/
def invokedEffects (l : List Effect) : List Effect :=
  l.filter (fun e => match e with
    | Effect.invoked _ => true
    | _ => false)

/-! Fixtures: a small catalog in the shape of the module-dispatch example of
the specification. -/

/-- Fixture module Synth A with role source. -/
def synthA : Module :=
  { name := some "Synth A", deviceName := some "Synth A", role := some "source",
    midiNote := none, channel := "L", phonia := none, tags := none, ab := none }

/-- Fixture module Comp 1 with role proc. -/
def comp1 : Module :=
  { name := some "Comp 1", deviceName := some "Comp 1", role := some "proc",
    midiNote := none, channel := "R", phonia := none, tags := none, ab := none }

/-- Fixture chain Drums with two modules. -/
def drums : Chain :=
  { name := "Drums", id := some "d1", midiChannel := some 3, active := true,
    modules := [synthA, comp1] }

/-- Fixture chain Bass without modules. -/
def bass : Chain :=
  { name := "Bass", id := some "b1", midiChannel := none, active := false,
    modules := [] }

/-- Controller state right after a successful load of [drums, bass], before
any view is drawn. -/
def stInit : ControllerState :=
  { chains := [drums, bass], currentChain := none, buttonTexts := [], buttonStates := [] }

/-- Catalog view over stInit. -/
def stCat : ControllerState := (showChains stInit).1

/-- Chain-detail view of Drums. -/
def stDetail : ControllerState := (loadChain stCat drums).1

/-- The empty controller state: no load ever succeeded. -/
def stEmpty : ControllerState :=
  { chains := [], currentChain := none, buttonTexts := [], buttonStates := [] }

/-! Helper characterizations of the catalog view. -/

/-- The button-text bindings produced by drawing a chain list from a start
index. -/
def slotTexts : Nat → List Chain → List (Nat × String)
  | _, [] => []
  | idx, c :: rest => (idx, c.name) :: slotTexts (idx + 1) rest

/-- The draw effects produced by drawing a chain list from a start index. -/
def slotEffects : Nat → List Chain → List Effect
  | _, [] => []
  | idx, c :: rest =>
      Effect.drawText idx c.name "#8B4513" 16 c.midiChannel :: slotEffects (idx + 1) rest

lemma mapSet_nil {α : Type} (k : Nat) (v : α) : mapSet ([] : List (Nat × α)) k v = [(k, v)] := rfl

lemma mapSet_of_forall_ne {α : Type} (m : List (Nat × α)) (k : Nat) (v : α)
    (h : ∀ p ∈ m, p.1 ≠ k) : mapSet m k v = m ++ [(k, v)] := by
  unfold mapSet
  rw [if_neg]
  simp only [List.any_eq_true, beq_iff_eq, not_exists, not_and]
  exact h

lemma mapGet_cons_ne {α : Type} (a k : Nat) (v : α) (m : List (Nat × α)) (h : a ≠ k) :
    mapGet ((a, v) :: m) k = mapGet m k := by
  unfold mapGet
  rw [List.find?_cons_of_neg]
  simpa using h

lemma chainButtons_spec (cs : List Chain) : ∀ (st : ControllerState) (idx : Nat),
    (∀ p ∈ st.buttonTexts, p.1 < idx) →
    chainButtons st cs idx =
      ({ st with buttonTexts := st.buttonTexts ++ slotTexts idx cs }, slotEffects idx cs) := by
  induction cs with
  | nil =>
      intro st idx _
      simp [chainButtons, slotTexts, slotEffects]
  | cons c cs ih =>
      intro st idx h
      have hset : mapSet st.buttonTexts idx c.name = st.buttonTexts ++ [(idx, c.name)] :=
        mapSet_of_forall_ne _ _ _ (fun p hp => Nat.ne_of_lt (h p hp))
      have hpre : ∀ p ∈ st.buttonTexts ++ [(idx, c.name)], p.1 < idx + 1 := by
        intro p hp
        rcases List.mem_append.mp hp with hp1 | hp1
        · exact Nat.lt_succ_of_lt (h p hp1)
        · simp at hp1
          simp [hp1]
      simp only [chainButtons, setButtonText, hset]
      rw [ih _ (idx + 1) hpre]
      simp [slotTexts, slotEffects]

lemma showChains_spec (st : ControllerState) :
    showChains st =
      ({ st with
          buttonTexts := (0, "Show Chains") :: slotTexts 1 (st.chains.take 31),
          buttonStates := [] },
       Effect.clearPanel :: Effect.setBrightness 100 ::
         Effect.drawText 0 "Show Chains" "#FF0000" 16 none ::
           slotEffects 1 (st.chains.take 31)) := by
  have h := chainButtons_spec (st.chains.take 31)
      { st with buttonTexts := [(0, "Show Chains")], buttonStates := [] } 1
      (by intro p hp; simp at hp; simp [hp])
  simp only [showChains, resetDeck, createShowChainsButton, setButtonText, mapSet_nil]
  rw [h]
  simp

/-! Lookup lemmas for the catalog view. -/

lemma slotTexts_mapGet (l : List Chain) : ∀ (idx i : Nat),
    mapGet (slotTexts idx l) (idx + i) = (l[i]?).map Chain.name := by
  induction l with
  | nil => intro idx i; simp [slotTexts, mapGet]
  | cons c cs ih =>
      intro idx i
      cases i with
      | zero =>
          simp only [slotTexts, mapGet, Nat.add_zero]
          rw [List.find?_cons_of_pos _ (by simp)]
          simp
      | succ i =>
          simp only [slotTexts]
          rw [mapGet_cons_ne _ _ _ _ (by omega)]
          rw [show idx + (i + 1) = (idx + 1) + i by omega]
          rw [ih (idx + 1) i]
          simp

lemma find?_first {α : Type} (p : α → Bool) : ∀ (l : List α) (i : Nat) (x : α),
    l[i]? = some x → p x = true →
    (∀ j, j < i → ∀ y, l[j]? = some y → p y = false) →
    l.find? p = some x := by
  intro l
  induction l with
  | nil => intro i x hx; simp at hx
  | cons a l ih =>
      intro i x hx hp hfirst
      cases i with
      | zero =>
          simp at hx
          subst hx
          exact List.find?_cons_of_pos _ hp
      | succ i =>
          have h0 : p a = false := hfirst 0 (Nat.succ_pos i) a (by simp)
          rw [List.find?_cons_of_neg _ (by simp [h0])]
          exact ih i x (by simpa using hx) hp
            (fun j hj y hy => hfirst (j + 1) (by omega) y (by simpa using hy))

/-! Field-preservation lemmas: none of the drawing loops touches the chains
field, and loadChain sets currentChain to the loaded chain. -/

lemma customLoop_fields (l : List LayoutEntry) : ∀ (st : ControllerState) (idx : Nat),
    (customLoop st l idx).1.chains = st.chains ∧
    (customLoop st l idx).1.currentChain = st.currentChain := by
  induction l with
  | nil => intro st idx; exact ⟨rfl, rfl⟩
  | cons b l ih =>
      intro st idx
      simp only [customLoop, setButtonText, registerButtonAction]
      exact ih _ _

lemma showModules_fields (st : ControllerState) (c : Chain) :
    (showModules st c).1.chains = st.chains ∧
    (showModules st c).1.currentChain = st.currentChain := by
  unfold showModules
  cases hml : moduleLayout c with
  | none => exact ⟨rfl, rfl⟩
  | some layout =>
      simpa [createCustomLayout] using customLoop_fields (layout.take 30) st 2

lemma loadChain_fields (st : ControllerState) (c : Chain) :
    (loadChain st c).1.chains = st.chains ∧
    (loadChain st c).1.currentChain = some c := by
  constructor
  · simp only [loadChain, resetDeck, createShowChainsButton, setButtonText,
      createChainNameButton, registerButtonAction]
    exact (showModules_fields _ _).1
  · simp only [loadChain, resetDeck, createShowChainsButton, setButtonText,
      createChainNameButton, registerButtonAction]
    exact (showModules_fields _ _).2

/-- Pressing button i + 1 in a state whose button texts are the catalog
layout loads the first chain whose name equals the name of chain i. -/
lemma press_slot_selects (st : ControllerState) (i : Nat) (ch : Chain)
    (hbt : st.buttonTexts = (0, "Show Chains") :: slotTexts 1 (st.chains.take 31))
    (hi : st.chains[i]? = some ch) (hi31 : i < 31) (hne : ch.name ≠ "")
    (hfirst : ∀ k, k < i → ∀ c, st.chains[k]? = some c → c.name ≠ ch.name) :
    handleKeyPress st (KeyEvent.bare (i + 1)) = loadChain st ch := by
  have htext : getButtonText st (i + 1) = ch.name := by
    unfold getButtonText
    rw [hbt, mapGet_cons_ne _ _ _ _ (by omega)]
    rw [show i + 1 = 1 + i by omega, slotTexts_mapGet]
    rw [List.getElem?_take_of_lt hi31, hi]
    simp [jsOr, hne]
  have hfind : st.chains.find? (fun c => c.name == ch.name) = some ch := by
    refine find?_first _ st.chains i ch hi (by simp) ?_
    intro j hj y hy
    simpa using hfirst j hj y hy
  simp only [handleKeyPress, getKeyIndex]
  rw [if_neg (Nat.succ_ne_zero i), htext, hfind]

/-! Further fixtures for the error-path claims. -/

/-- A normalized module whose raw item carried no role record: role is
undefined after normalization. -/
def noRoleModule : Module :=
  { name := some "Mystery", deviceName := some "Mystery", role := none,
    midiNote := none, channel := "L", phonia := none, tags := none, ab := none }

/-- A chain holding the role-less module. -/
def noRoleChain : Chain :=
  { name := "NoRole", id := none, midiChannel := none, active := false,
    modules := [noRoleModule] }

/-- A raw item side with every optional sub-field absent. -/
def rawSideBare : RawSide :=
  { name := some "M", device := none, roleKeys := none, midi := none,
    phonia := none, tags := none }

/-- A raw chain with one item whose L side has no device and no role
record. -/
def rawNoDev : RawChain :=
  { state := some { name := some "X", midiChannel := none }, id := some "c1",
    cond := none,
    lanes := some [{ cells := some [{ items := some [{ L := some rawSideBare, R := none }],
                                      ab := none }] }] }

/-- A decoded document whose chains mapping is empty. -/
def rawEmpty : RawData := ⟨[]⟩

/-- A decoded document with one fully bare chain record. -/
def rawOne : RawData :=
  ⟨[{ state := none, id := none, cond := none, lanes := none }]⟩

/-- A state in which a caller registered press and release callbacks for
button 5 through the public registerButtonAction. -/
def stRel : ControllerState :=
  registerButtonAction stInit 5 (Action.hostCallback "press5")
    (some (Action.hostCallback "rel5"))

/-- Encoder bindings with a rotate callback on the left dial only. -/
def encFix : EncoderBindings :=
  { left := { rotate := some 7, press := none, release := none },
    right := { rotate := none, press := none, release := none } }

/-! Claim theorems. -/

/-- Claim C1: the specification says that in the chain-detail view pressing
button i at least 2 invokes exactly the onPress action registered for that
slot and stays in the detail view. On the code, pressing button 2 or 3 in
the Drums detail view is a silent no-op (state unchanged, no effects): the
press handler matches the displayed text against chain names instead of
consulting the registered press callbacks, which are never dispatched, even
though the Synth A and Comp 1 actions are registered at slots 2 and 3. -/
theorem C1_module_press_not_dispatched :
    mapGet stDetail.buttonStates 2 = some ⟨Action.moduleInfo synthA "Synth A", none⟩ ∧
    mapGet stDetail.buttonStates 3 = some ⟨Action.moduleInfo comp1 "Comp 1", none⟩ ∧
    handleKeyPress stDetail (KeyEvent.bare 2) = (stDetail, [], none) ∧
    handleKeyPress stDetail (KeyEvent.bare 3) = (stDetail, [], none) := by
  refine ⟨rfl, rfl, by decide, by decide⟩

/-- Claim C3: the role-to-color table does hold for present roles, source to
dark blue, proc to dark orange, dest to dark green, unknown strings to dark
gray; but a missing role, which normalization does produce (shown on
rawNoDev), makes the color lookup throw instead of returning gray, so
rendering a chain with such a module fails before drawing any module
slot. -/
theorem C3_missing_role_crash :
    getColorForRole (some "source") = some "#00008B" ∧
    getColorForRole (some "proc") = some "#FF8C00" ∧
    getColorForRole (some "dest") = some "#006400" ∧
    getColorForRole (some "weird") = some "#333333" ∧
    getColorForRole none = none ∧
    (normalizeChain rawNoDev).map (fun c => c.modules.map Module.role) = some [none] ∧
    showModules stEmpty noRoleChain =
      (stEmpty, [], some "TypeError: cannot read toLowerCase of undefined") := by
  refine ⟨rfl, rfl, rfl, rfl, rfl, rfl, rfl⟩

/-- Claim C6: the specification says that in the chain-detail view slot 1 is
the chain header and pressing it only invokes its registered informational
action, with no navigation side effect. On the code the header text equals
the chain name, so the press handler finds the chain by name and re-runs
loadChain, clearing and redrawing the whole view; the registered
informational callback at slot 1 is never invoked. -/
theorem C6_header_press_reloads :
    mapGet stDetail.buttonTexts 1 = some "Drums" ∧
    mapGet stDetail.buttonStates 1 = some ⟨Action.currentChainInfo "Drums", none⟩ ∧
    handleKeyPress stDetail (KeyEvent.bare 1) = loadChain stDetail drums ∧
    (handleKeyPress stDetail (KeyEvent.bare 1)).2.1.head? = some Effect.clearPanel ∧
    invokedEffects (handleKeyPress stDetail (KeyEvent.bare 1)).2.1 = [] := by
  refine ⟨rfl, rfl, by decide, by decide, by decide⟩

/-- Claim C9: the specification says both button-down and button-up handling
normalize a raw payload (bare number or structured event with an index
field) to the same canonical integer before slot lookup. The press-side
getKeyIndex does resolve a structured payload to its index, but the release
handler looks the raw payload up under Number(payload), which is NaN for an
object, so a structured release event fires no registered onRelease while
the bare release event for the same slot does. -/
theorem C9_release_not_normalized :
    getKeyIndex (KeyEvent.structured 5) = getKeyIndex (KeyEvent.bare 5) ∧
    jsNumber (KeyEvent.structured 5) = none ∧
    handleKeyRelease stRel (KeyEvent.bare 5) = [Effect.invoked (Action.hostCallback "rel5")] ∧
    handleKeyRelease stRel (KeyEvent.structured 5) = [] := by
  refine ⟨rfl, rfl, by decide, rfl⟩

/-- Claim C2, counterexample: with the two-chain catalog [Drums, Bass] the
claim puts Drums at button index 2; the code draws Drums at index 1 and
Bass at index 2, so content slots start at index 1, not 2. -/
theorem C2_counterexample :
    mapGet (showChains stInit).1.buttonTexts 1 = some "Drums" ∧
    mapGet (showChains stInit).1.buttonTexts 2 = some "Bass" := by
  exact ⟨rfl, rfl⟩

/-- Claim C2, amended: in the catalog view content slots start at button
index 1: slot 0 is the fixed system button, slot i + 1 shows chains[i] for
every i below 31 (absent when the catalog is shorter), chains beyond the
31st appear in no slot, and no slot index above 31 is ever drawn. -/
theorem C2_catalog_slots (st : ControllerState) :
    mapGet (showChains st).1.buttonTexts 0 = some "Show Chains" ∧
    (∀ i, i < 31 →
      mapGet (showChains st).1.buttonTexts (i + 1) = (st.chains[i]?).map Chain.name) ∧
    (∀ k, 31 < k → mapGet (showChains st).1.buttonTexts k = none) := by
  rw [showChains_spec]
  refine ⟨rfl, ?_, ?_⟩
  · intro i hi
    show mapGet ((0, "Show Chains") :: slotTexts 1 (st.chains.take 31)) (i + 1) = _
    rw [mapGet_cons_ne _ _ _ _ (by omega)]
    rw [show i + 1 = 1 + i by omega, slotTexts_mapGet]
    rw [List.getElem?_take_of_lt hi]
  · intro k hk
    show mapGet ((0, "Show Chains") :: slotTexts 1 (st.chains.take 31)) k = _
    rw [mapGet_cons_ne _ _ _ _ (by omega)]
    rw [show k = 1 + (k - 1) by omega, slotTexts_mapGet]
    rw [List.getElem?_eq_none (by simp; omega)]
    rfl

/-- Witness for C2_catalog_slots at the concrete two-chain catalog. -/
theorem C2_catalog_slots_witness :
    mapGet (showChains stInit).1.buttonTexts 0 = some "Show Chains" ∧
    mapGet (showChains stInit).1.buttonTexts 3 = none ∧
    mapGet (showChains stInit).1.buttonTexts 40 = none := by
  have h := C2_catalog_slots stInit
  refine ⟨h.1, ?_, h.2.2 40 (by decide)⟩
  have h2 := h.2.1 2 (by decide)
  simpa using h2

/-- Claim C4, counterexample: loading a document with an empty chains
mapping over a state that holds the previously loaded catalog [drums, bass]
raises the empty-catalog error but also replaces the catalog with the empty
sequence: the previous catalog is not left in place. -/
theorem C4_counterexample :
    loadChainLayout stInit rawEmpty =
      ({ stInit with chains := [] }, [], some "No chains found in the JSON file.") ∧
    (loadChainLayout stInit rawEmpty).1.chains ≠ stInit.chains := by
  exact ⟨rfl, by decide⟩

/-- Claim C4, amended: a catalog load whose resulting chain sequence is
empty raises the empty-catalog error, but only after overwriting the
catalog with the empty sequence, so the previously loaded catalog is
discarded rather than left unchanged; a load whose normalization yields a
non-empty sequence replaces the catalog with exactly that sequence and
reports no error. -/
theorem C4_empty_load_replaces :
    (∀ (st : ControllerState) (data : RawData), data.chains = [] →
      loadChainLayout st data =
        ({ st with chains := [] }, [], some "No chains found in the JSON file.")) ∧
    (∀ (st : ControllerState) (data : RawData) (cs : List Chain),
      data.chains.mapM normalizeChain = some cs → cs ≠ [] →
      (loadChainLayout st data).1.chains = cs ∧
      (loadChainLayout st data).2.2 = none) := by
  constructor
  · intro st data h
    rcases data with ⟨cs⟩
    simp only at h
    subst h
    rfl
  · intro st data cs hmm hne
    unfold loadChainLayout
    rw [hmm]
    dsimp only
    rw [if_neg (by simpa using hne)]
    rw [showChains_spec]
    exact ⟨rfl, rfl⟩

/-- Witness for C4_empty_load_replaces: the empty document discards the
previous catalog, and the one-chain document installs the normalized
chain. -/
theorem C4_empty_load_replaces_witness :
    loadChainLayout stInit rawEmpty =
      ({ stInit with chains := [] }, [], some "No chains found in the JSON file.") ∧
    (loadChainLayout stEmpty rawOne).1.chains =
      [{ name := "Unnamed Chain", id := none, midiChannel := none,
         active := false, modules := [] }] ∧
    (loadChainLayout stEmpty rawOne).2.2 = none := by
  refine ⟨C4_empty_load_replaces.1 stInit rawEmpty rfl, ?_⟩
  have h := C4_empty_load_replaces.2 stEmpty rawOne
    [{ name := "Unnamed Chain", id := none, midiChannel := none,
       active := false, modules := [] }] (by decide) (by decide)
  exact h

/-- Claim C5, counterexample: normalizing a chain whose item side has no
device and no role record succeeds, but the resulting module keeps
deviceName and role absent: the documented non-empty placeholder and
default role category are not substituted at normalization (they are only
applied later at display time). -/
theorem C5_counterexample :
    (normalizeChain rawNoDev).map
        (fun c => c.modules.map (fun m => (m.deviceName, m.role))) =
      some [(none, none)] := by
  rfl

/-- Claim C5, amended: catalog normalization is total over structurally
absent optional fields: an absent chain name degrades to the fixed
placeholder, an absent active flag to false, an absent lanes record or an
absent cells record to an empty module list, an absent items record to no
modules from that cell, and an absent channel side to no module; but an
absent module device name, role, midi note or tag list is carried through
as an absent value rather than replaced by its display fallback. -/
theorem C5_normalization_defaults :
    (∀ (s : Option RawChainMeta) (i : Option String) (c : Option RawCond),
      normalizeChain { state := s, id := i, cond := c, lanes := none } =
        some { name := jsOr (s.bind RawChainMeta.name) "Unnamed Chain", id := i,
               midiChannel := s.bind RawChainMeta.midiChannel,
               active := (c.bind RawCond.active).getD false, modules := [] }) ∧
    (∀ (s : Option RawChainMeta) (i : Option String) (c : Option RawCond) (ls : List RawLane),
      normalizeChain { state := s, id := i, cond := c,
                       lanes := some ({ cells := none } :: ls) } =
        some { name := jsOr (s.bind RawChainMeta.name) "Unnamed Chain", id := i,
               midiChannel := s.bind RawChainMeta.midiChannel,
               active := (c.bind RawCond.active).getD false, modules := [] }) ∧
    (∀ (cellAb : Option String) (nm : Option String),
      sideModules "L"
          (some { name := nm, device := none, roleKeys := none, midi := none,
                  phonia := none, tags := none }) cellAb =
        [{ name := nm, deviceName := none, role := none, midiNote := none,
           channel := "L", phonia := none, tags := none, ab := cellAb }]) ∧
    (∀ cellAb : Option String, sideModules "R" none cellAb = []) ∧
    (∀ ab : Option String, cellModules { items := none, ab := ab } = []) := by
  exact ⟨fun _ _ _ => rfl, fun _ _ _ _ => rfl, fun _ _ => rfl, fun _ => rfl, fun _ => rfl⟩

/-- Claim C7, counterexample: with the empty catalog, pressing button 0 is
not a no-op and the display does not stay blank: the handler clears the
panel and draws the fixed Show Chains system button at slot 0. -/
theorem C7_counterexample :
    handleKeyPress stEmpty (KeyEvent.bare 0) =
      ({ stEmpty with buttonTexts := [(0, "Show Chains")] },
       [Effect.clearPanel, Effect.setBrightness 100,
        Effect.drawText 0 "Show Chains" "#FF0000" 16 none], none) ∧
    handleKeyPress stEmpty (KeyEvent.bare 0) ≠ (stEmpty, [], none) := by
  exact ⟨by decide, by decide⟩

/-- Claim C7, amended: when the catalog is empty every button press is
crash-free; pressing any button other than 0 is a no-op, while pressing
button 0 clears the panel and redraws only the fixed system button at slot
0, leaving every content slot blank. -/
theorem C7_empty_catalog_presses (st : ControllerState) (h : st.chains = [])
    (e : KeyEvent) :
    (handleKeyPress st e).2.2 = none ∧
    (getKeyIndex e = 0 →
      handleKeyPress st e =
        ({ st with buttonTexts := [(0, "Show Chains")], buttonStates := [] },
         [Effect.clearPanel, Effect.setBrightness 100,
          Effect.drawText 0 "Show Chains" "#FF0000" 16 none], none)) ∧
    (getKeyIndex e ≠ 0 → handleKeyPress st e = (st, [], none)) := by
  have hzero : getKeyIndex e = 0 →
      handleKeyPress st e =
        ({ st with buttonTexts := [(0, "Show Chains")], buttonStates := [] },
         [Effect.clearPanel, Effect.setBrightness 100,
          Effect.drawText 0 "Show Chains" "#FF0000" 16 none], none) := by
    intro h0
    simp only [handleKeyPress, h0, if_pos]
    rw [showChains_spec, h]
    simp [slotTexts, slotEffects]
  have hpos : getKeyIndex e ≠ 0 → handleKeyPress st e = (st, [], none) := by
    intro h0
    simp only [handleKeyPress]
    rw [if_neg h0, h]
    rfl
  refine ⟨?_, hzero, hpos⟩
  by_cases h0 : getKeyIndex e = 0
  · rw [hzero h0]
  · rw [hpos h0]

/-- Witness for C7_empty_catalog_presses at the empty state with buttons 0
and 7. -/
theorem C7_empty_catalog_presses_witness :
    (handleKeyPress stEmpty (KeyEvent.bare 0)).2.2 = none ∧
    handleKeyPress stEmpty (KeyEvent.bare 0) =
      ({ stEmpty with buttonTexts := [(0, "Show Chains")], buttonStates := [] },
       [Effect.clearPanel, Effect.setBrightness 100,
        Effect.drawText 0 "Show Chains" "#FF0000" 16 none], none) ∧
    handleKeyPress stEmpty (KeyEvent.bare 7) = (stEmpty, [], none) := by
  exact ⟨(C7_empty_catalog_presses stEmpty rfl (KeyEvent.bare 0)).1,
         (C7_empty_catalog_presses stEmpty rfl (KeyEvent.bare 0)).2.1 rfl,
         (C7_empty_catalog_presses stEmpty rfl (KeyEvent.bare 7)).2.2 (by decide)⟩

lemma press_zero (st : ControllerState) :
    handleKeyPress st (KeyEvent.bare 0) = ((showChains st).1, (showChains st).2, none) := rfl

/-- Claim C8: from the catalog view, pressing the slot of chain i selects
exactly that chain (given its name is non-empty and not shared by an
earlier chain); pressing slot 0 from the detail view rebuilds a catalog
layout with the same button texts and the same draw effects as the original
one; pressing the slot of a different chain j then selects chain j, never
the previously selected one. Content slot for chain i is button i + 1. -/
theorem C8_navigation_round_trip (st : ControllerState) (i j : Nat) (chI chJ : Chain)
    (hi : st.chains[i]? = some chI) (hi31 : i < 31) (hneI : chI.name ≠ "")
    (hfI : ∀ k, k < i → ∀ c, st.chains[k]? = some c → c.name ≠ chI.name)
    (hj : st.chains[j]? = some chJ) (hj31 : j < 31) (hneJ : chJ.name ≠ "")
    (hfJ : ∀ k, k < j → ∀ c, st.chains[k]? = some c → c.name ≠ chJ.name) :
    (handleKeyPress (showChains st).1 (KeyEvent.bare (i + 1))).1.currentChain = some chI ∧
    (handleKeyPress (handleKeyPress (showChains st).1 (KeyEvent.bare (i + 1))).1
        (KeyEvent.bare 0)).1.buttonTexts = (showChains st).1.buttonTexts ∧
    (handleKeyPress (handleKeyPress (showChains st).1 (KeyEvent.bare (i + 1))).1
        (KeyEvent.bare 0)).2.1 = (showChains st).2 ∧
    (handleKeyPress (handleKeyPress (handleKeyPress (showChains st).1
        (KeyEvent.bare (i + 1))).1 (KeyEvent.bare 0)).1
        (KeyEvent.bare (j + 1))).1.currentChain = some chJ := by
  have hs0eq : (showChains st).1 =
      { st with buttonTexts := (0, "Show Chains") :: slotTexts 1 (st.chains.take 31),
                buttonStates := [] } := by
    rw [showChains_spec]
  have hs0chains : (showChains st).1.chains = st.chains := by rw [hs0eq]
  have h1 : handleKeyPress (showChains st).1 (KeyEvent.bare (i + 1)) =
      loadChain (showChains st).1 chI := by
    refine press_slot_selects _ i chI ?_ ?_ hi31 hneI ?_
    · rw [hs0eq]
    · rw [hs0chains]; exact hi
    · intro k hk c hc
      rw [hs0chains] at hc
      exact hfI k hk c hc
  have hr1c : (handleKeyPress (showChains st).1 (KeyEvent.bare (i + 1))).1.chains = st.chains := by
    rw [h1, (loadChain_fields _ _).1, hs0chains]
  have hc1 : (handleKeyPress (showChains st).1 (KeyEvent.bare (i + 1))).1.currentChain =
      some chI := by
    rw [h1]
    exact (loadChain_fields _ _).2
  have hr2eq : handleKeyPress (handleKeyPress (showChains st).1 (KeyEvent.bare (i + 1))).1
      (KeyEvent.bare 0) =
      ((showChains (handleKeyPress (showChains st).1 (KeyEvent.bare (i + 1))).1).1,
       (showChains (handleKeyPress (showChains st).1 (KeyEvent.bare (i + 1))).1).2, none) :=
    press_zero _
  have hbt2 : (handleKeyPress (handleKeyPress (showChains st).1 (KeyEvent.bare (i + 1))).1
      (KeyEvent.bare 0)).1.buttonTexts =
      (0, "Show Chains") :: slotTexts 1 (st.chains.take 31) := by
    rw [hr2eq]
    dsimp only
    rw [showChains_spec]
    dsimp only
    rw [hr1c]
  have hr2chains : (handleKeyPress (handleKeyPress (showChains st).1 (KeyEvent.bare (i + 1))).1
      (KeyEvent.bare 0)).1.chains = st.chains := by
    rw [hr2eq]
    dsimp only
    rw [showChains_spec]
    dsimp only
    exact hr1c
  refine ⟨hc1, ?_, ?_, ?_⟩
  · rw [hbt2, hs0eq]
  · rw [hr2eq]
    dsimp only
    rw [showChains_spec]
    dsimp only
    rw [hr1c]
    conv_rhs => rw [showChains_spec]
  · have h3 : handleKeyPress (handleKeyPress (handleKeyPress (showChains st).1
        (KeyEvent.bare (i + 1))).1 (KeyEvent.bare 0)).1 (KeyEvent.bare (j + 1)) =
        loadChain (handleKeyPress (handleKeyPress (showChains st).1
          (KeyEvent.bare (i + 1))).1 (KeyEvent.bare 0)).1 chJ := by
      refine press_slot_selects _ j chJ ?_ ?_ hj31 hneJ ?_
      · rw [hbt2, hr2chains]
      · rw [hr2chains]; exact hj
      · intro k hk c hc
        rw [hr2chains] at hc
        exact hfJ k hk c hc
    rw [h3]
    exact (loadChain_fields _ _).2

/-- Witness for C8_navigation_round_trip on the concrete catalog
[drums, bass]: press the Drums slot (button 1), then slot 0, then the Bass
slot (button 2). -/
theorem C8_navigation_round_trip_witness :
    (handleKeyPress (showChains stInit).1 (KeyEvent.bare 1)).1.currentChain = some drums ∧
    (handleKeyPress (handleKeyPress (showChains stInit).1 (KeyEvent.bare 1)).1
        (KeyEvent.bare 0)).1.buttonTexts = (showChains stInit).1.buttonTexts ∧
    (handleKeyPress (handleKeyPress (showChains stInit).1 (KeyEvent.bare 1)).1
        (KeyEvent.bare 0)).2.1 = (showChains stInit).2 ∧
    (handleKeyPress (handleKeyPress (handleKeyPress (showChains stInit).1
        (KeyEvent.bare 1)).1 (KeyEvent.bare 0)).1
        (KeyEvent.bare 2)).1.currentChain = some bass := by
  have h := C8_navigation_round_trip stInit 0 1 drums bass rfl (by decide) (by decide)
    (fun k hk c _ => absurd hk (Nat.not_lt_zero k))
    rfl (by decide) (by decide)
    (fun k hk c hc => by
      have hk0 : k = 0 := by omega
      subst hk0
      have hcd : c = drums := by simpa [stInit] using hc.symm
      subst hcd
      decide)
  simpa using h

/-- Claim C10: dial event routing partitions dial ids in exactly two
classes: id 0 resolves to the left binding for both rotation handling and
registration, and every non-zero id (not only 1) resolves to the right
binding; an absent rotate callback makes the rotation a silent no-op. -/
theorem C10_dial_partition (b : EncoderBindings) (encoder : Nat) (r : Int)
    (cbs : EncoderCallbacks) :
    (encoder = 0 →
      handleEncoderRotate b encoder r =
        (match b.left.rotate with
         | some cb => [Effect.encoderCall cb r]
         | none => []) ∧
      registerEncoderActions b encoder cbs = { b with left := cbs }) ∧
    (encoder ≠ 0 →
      handleEncoderRotate b encoder r =
        (match b.right.rotate with
         | some cb => [Effect.encoderCall cb r]
         | none => []) ∧
      registerEncoderActions b encoder cbs = { b with right := cbs }) := by
  constructor
  · intro h0
    subst h0
    exact ⟨rfl, rfl⟩
  · intro h0
    unfold handleEncoderRotate registerEncoderActions
    rw [if_neg h0, if_neg h0]
    exact ⟨rfl, rfl⟩

/-- Witness for C10_dial_partition: left callback fires for id 0, id 3 uses
the right binding, whose absent callback makes the rotation a no-op and
whose registration lands on the right record. -/
theorem C10_dial_partition_witness :
    handleEncoderRotate encFix 0 5 = [Effect.encoderCall 7 5] ∧
    handleEncoderRotate encFix 3 5 = [] ∧
    registerEncoderActions encFix 3 ⟨some 9, none, none⟩ =
      { encFix with right := ⟨some 9, none, none⟩ } := by
  have h0 := (C10_dial_partition encFix 0 5 ⟨some 9, none, none⟩).1 rfl
  have h3 := (C10_dial_partition encFix 3 5 ⟨some 9, none, none⟩).2 (by decide)
  exact ⟨h0.1, h3.1, h3.2⟩

end SDeck
